import Mathlib

/-!
# Verification of the AudioToText transcription pipeline

Shallow embedding of the core logic of the AudioToText repository
(`app/models.py`, `app/transcribe.py`, `app/main.py`) and proofs about it.

Modelling conventions:
* Python `float` times are modelled as exact rationals (`Rat`); the claims
  under study are about control flow, ordering and comparisons, not about
  binary floating-point rounding.
* External collaborators (the Whisper recognition engine, the pyannote
  diarization engine, ffmpeg, the filesystem) are inputs to the embedded
  functions, mirroring the spec's treatment of them as opaque collaborators.
* Python exceptions are modelled with `Except`; the raised exception's class
  and message are carried in the error value.
-/

set_option maxHeartbeats 1000000
set_option linter.unusedVariables false

namespace AudioToText

/-- Python `str.strip()` whitespace test: the ASCII whitespace characters
removed by `strip()` with no arguments. -/
def isPySpace (c : Char) : Bool :=
  c = ' ' || c = '\t' || c = '\n' || c = '\x0d' || c = '\x0b' || c = '\x0c'

/-- Python `s.strip()`: remove leading and trailing whitespace. -/
def pyStrip (s : String) : String :=
  String.mk (((s.data.dropWhile isPySpace).reverse.dropWhile isPySpace).reverse)

/-- Python float `a % b`: the remainder with the sign of the divisor,
`a - b * floor(a / b)`. -/
def pyMod (a b : Rat) : Rat := a - b * Rat.floor (a / b)

/-- Python builtin `max(a, b)`: the second argument only when it is strictly
greater. -/
def pyMax (a b : Rat) : Rat := if a < b then b else a

/-- Python builtin `min(a, b)`: the second argument only when it is strictly
smaller. -/
def pyMin (a b : Rat) : Rat := if b < a then b else a

/-- Python `f"{n:0Nd}"`: decimal rendering of an integer, zero-padded on the
left (after the sign) to a total width of `w` characters. -/
def fmtZeroPad (w : Nat) (n : Int) : String :=
  let digits := toString n.natAbs
  let pad := fun (body : String) (width : Nat) =>
    if body.length ≥ width then body
    else String.mk (List.replicate (width - body.length) '0') ++ body
  if n < 0 then "-" ++ pad digits (w - 1) else pad digits w

/- ----------------------------------------------------------------
   Data model (`app/models.py`)
---------------------------------------------------------------- -/

/-- Model of `TranscriptionSegment` from `app/models.py`: one
speaker-attributed span of recognized text. -/
structure TranscriptionSegment where
  text : String
  start_time : Rat
  end_time : Rat
  speaker : Option String := none
  confidence : Option Rat := none
deriving Repr, DecidableEq

/-- The metadata dict built by `AudioTranscriber.transcribe_audio`
(`app/transcribe.py` lines 311-316); it is the only metadata the repository
ever attaches to a result. -/
structure TranscriptionMetadata where
  model_size : String
  original_file : String
  file_format : String
  speaker_diarization : Bool
deriving Repr, DecidableEq

/-- Model of `TranscriptionResult` from `app/models.py`. `created_at` is an
abstract timestamp (the code stores `datetime.now()`). -/
structure TranscriptionResult where
  segments : List TranscriptionSegment
  full_text : String
  duration : Rat
  num_speakers : Nat
  language : Option String := none
  metadata : TranscriptionMetadata
  task_id : String
  created_at : Nat
deriving Repr, DecidableEq

/-- Model of `TaskStatus` from `app/models.py`. -/
structure TaskStatus where
  task_id : String
  status : String
  progress : Rat := 0
  message : Option String := none
  result : Option TranscriptionResult := none
  error : Option String := none
  created_at : Nat
deriving Repr, DecidableEq

/-- One segment dict of the Whisper recognition result (`result["segments"]`
entries used by `transcribe.py`: keys `"text"`, `"start"`, `"end"`). -/
structure WhisperSegment where
  text : String
  start : Rat
  «end» : Rat
deriving Repr, DecidableEq

/-- The part of the Whisper result dict that `transcribe_audio` reads:
`result["segments"]` and `result.get("language")`. -/
structure WhisperResult where
  segments : List WhisperSegment
  language : Option String := none
deriving Repr, DecidableEq

/-- One speaker-turn dict produced by `AudioTranscriber.diarize_speakers`
(keys `"start"`, `"end"`, `"speaker"`). -/
structure SpeakerSeg where
  start : Rat
  «end» : Rat
  speaker : String
deriving Repr, DecidableEq

/- ----------------------------------------------------------------
   Segment-speaker alignment (`AudioTranscriber.assign_speakers_to_segments`,
   `app/transcribe.py` lines 201-242)
---------------------------------------------------------------- -/

/-- The overlap computation of the inner loop of
`assign_speakers_to_segments` (lines 225-227):
`max(0, min(seg.end, turn.end) - max(seg.start, turn.start))`. -/
def overlap_duration (whisper_seg : WhisperSegment) (speaker_seg : SpeakerSeg) : Rat :=
  let overlap_start := pyMax whisper_seg.start speaker_seg.start
  let overlap_end := pyMin whisper_seg.«end» speaker_seg.«end»
  pyMax 0 (overlap_end - overlap_start)

/-- One iteration of the speaker-selection loop (lines 223-231): the running
state is `(assigned_speaker, max_overlap)`, updated only on a strictly
greater overlap. -/
def speakerFold (whisper_seg : WhisperSegment) (acc : String × Rat)
    (speaker_seg : SpeakerSeg) : String × Rat :=
  if overlap_duration whisper_seg speaker_seg > acc.2 then
    (speaker_seg.speaker, overlap_duration whisper_seg speaker_seg)
  else acc

/-- Model of `AudioTranscriber.assign_speakers_to_segments`. The `speaker_segments`
argument is `Optional[List]` in Python; `if not speaker_segments:` is true
both for `None` and for the empty list, and in that case every segment is
labelled `"Speaker 1"`. Otherwise each Whisper segment is labelled by the
loop starting from `assigned_speaker = "Speaker 1"`, `max_overlap = 0`. -/
def assign_speakers_to_segments (whisper_segments : List WhisperSegment)
    (speaker_segments : Option (List SpeakerSeg)) : List TranscriptionSegment :=
  match speaker_segments with
  | none =>
      whisper_segments.map fun segment =>
        { text := pyStrip segment.text, start_time := segment.start,
          end_time := segment.«end», speaker := some "Speaker 1" }
  | some [] =>
      whisper_segments.map fun segment =>
        { text := pyStrip segment.text, start_time := segment.start,
          end_time := segment.«end», speaker := some "Speaker 1" }
  | some speaker_list =>
      whisper_segments.map fun whisper_seg =>
        let r := speaker_list.foldl (speakerFold whisper_seg) ("Speaker 1", 0)
        { text := pyStrip whisper_seg.text, start_time := whisper_seg.start,
          end_time := whisper_seg.«end», speaker := some r.1 }

/-- The label that `assign_speakers_to_segments` computes for one Whisper
segment, as a function of the optional turn list. -/
def assignedLabel (whisper_seg : WhisperSegment)
    (speaker_segments : Option (List SpeakerSeg)) : String :=
  match speaker_segments with
  | none => "Speaker 1"
  | some [] => "Speaker 1"
  | some speaker_list =>
      (speaker_list.foldl (speakerFold whisper_seg) ("Speaker 1", 0)).1

theorem assign_eq_map (ws : List WhisperSegment) (ss : Option (List SpeakerSeg)) :
    assign_speakers_to_segments ws ss = ws.map fun w =>
      { text := pyStrip w.text, start_time := w.start, end_time := w.«end»,
        speaker := some (assignedLabel w ss) } := by
  match ss with
  | none => rfl
  | some [] => rfl
  | some (t :: ts) => rfl

/- ----------------------------------------------------------------
   Output formatting (`AudioTranscriber.format_output` and
   `AudioTranscriber._format_srt_time`, `app/transcribe.py` lines 341-382)
---------------------------------------------------------------- -/

/-- The Python exceptions that the formatting layer can surface.
`valueError` is the built-in `ValueError`; `unsupportedFormatError` is
`app.exceptions.UnsupportedFormatError` (defined in `app/exceptions.py`
lines 14-16, subclass of `FileValidationError`). -/
inductive PyError where
  | valueError (msg : String)
  | unsupportedFormatError (msg : String)
deriving Repr, DecidableEq

/-- Left and right curly brace, as strings (used when rendering JSON). -/
def lbrace : String := "\x7b"

def rbrace : String := "\x7d"

/-- JSON string escaping for the serializer model. -/
def jsonEscapeChar (c : Char) : String :=
  if c = '"' then "\\\"" else if c = '\\' then "\\\\"
  else if c = '\n' then "\\n" else if c = '\t' then "\\t"
  else if c = '\x0d' then "\\r" else String.singleton c

def jsonStr (s : String) : String :=
  "\"" ++ String.join (s.data.map jsonEscapeChar) ++ "\""

/-- Deterministic rendering of a rational number for the serializer model. -/
def jsonRat (q : Rat) : String :=
  if q.den = 1 then toString q.num else toString q.num ++ "/" ++ toString q.den

def jsonOptStr : Option String → String
  | none => "null"
  | some s => jsonStr s

def jsonOptRat : Option Rat → String
  | none => "null"
  | some q => jsonRat q

def jsonBool (b : Bool) : String := if b then "true" else "false"

/-- Models the serialization of one `TranscriptionSegment` inside
`model_dump_json`: fields in declaration order of `app/models.py`. -/
def segmentJson (s : TranscriptionSegment) : String :=
  lbrace ++ "\"text\": " ++ jsonStr s.text
    ++ ", \"start_time\": " ++ jsonRat s.start_time
    ++ ", \"end_time\": " ++ jsonRat s.end_time
    ++ ", \"speaker\": " ++ jsonOptStr s.speaker
    ++ ", \"confidence\": " ++ jsonOptRat s.confidence ++ rbrace

/-- Models the pydantic library call `result.model_dump_json(indent=2)`
(library code external to the repository): a deterministic JSON rendering of
every field of `TranscriptionResult` in declaration order.  The exact layout
of pydantic's output is not reproduced; what matters for the claims is that
the serialization is a pure function of the result. -/
def model_dump_json (r : TranscriptionResult) : String :=
  lbrace
    ++ "\n  \"segments\": [" ++ String.intercalate ", " (r.segments.map segmentJson) ++ "]"
    ++ ",\n  \"full_text\": " ++ jsonStr r.full_text
    ++ ",\n  \"duration\": " ++ jsonRat r.duration
    ++ ",\n  \"num_speakers\": " ++ toString r.num_speakers
    ++ ",\n  \"language\": " ++ jsonOptStr r.language
    ++ ",\n  \"metadata\": " ++ lbrace
      ++ "\"model_size\": " ++ jsonStr r.metadata.model_size
      ++ ", \"original_file\": " ++ jsonStr r.metadata.original_file
      ++ ", \"file_format\": " ++ jsonStr r.metadata.file_format
      ++ ", \"speaker_diarization\": " ++ jsonBool r.metadata.speaker_diarization
      ++ rbrace
    ++ ",\n  \"task_id\": " ++ jsonStr r.task_id
    ++ ",\n  \"created_at\": " ++ toString r.created_at
    ++ "\n" ++ rbrace

/-- Model of `AudioTranscriber._format_srt_time`: convert seconds to the SRT
timestamp `HH:MM:SS,mmm`.  Python `//` and `%` on floats are floor division
and positive-divisor modulus; `int(...)` truncates, which on each
(non-negative) operand below coincides with the floor. -/
def format_srt_time (seconds : Rat) : String :=
  let hours : Int := Rat.floor (seconds / 3600)
  let minutes : Int := Rat.floor (pyMod seconds 3600 / 60)
  let secs : Int := Rat.floor (pyMod seconds 60)
  let millisecs : Int := Rat.floor (pyMod seconds 1 * 1000)
  fmtZeroPad 2 hours ++ ":" ++ fmtZeroPad 2 minutes ++ ":"
    ++ fmtZeroPad 2 secs ++ "," ++ fmtZeroPad 3 millisecs

/-- One line of the `txt` rendering (lines 348-351).  Python
`if segment.speaker` is false for `None` and for the empty string. -/
def txtLine (segment : TranscriptionSegment) : String :=
  let timestamp := "[" ++ fmtZeroPad 2 (Rat.floor (segment.start_time / 60))
    ++ ":" ++ fmtZeroPad 2 (Rat.floor (pyMod segment.start_time 60)) ++ "]"
  let speaker := match segment.speaker with
    | some s => if s = "" then "" else s ++ ":"
    | none => ""
  timestamp ++ " " ++ speaker ++ " " ++ segment.text

/-- The SRT cue lines for segment number `i` (1-based), lines 357-369. -/
def srtCue (i : Nat) (segment : TranscriptionSegment) : List String :=
  let body := match segment.speaker with
    | some s => if s = "" then segment.text else s ++ ": " ++ segment.text
    | none => segment.text
  [toString i, format_srt_time segment.start_time ++ " --> "
      ++ format_srt_time segment.end_time, body, ""]

/-- Model of `AudioTranscriber.format_output` (lines 341-374): `json`, `txt` and
`srt` renderings; any other format raises
`ValueError(f"Unsupported output format: ...")`. -/
def format_output (result : TranscriptionResult) (output_format : String) :
    Except PyError String :=
  if output_format = "json" then
    .ok (model_dump_json result)
  else if output_format = "txt" then
    .ok (String.intercalate "\n" (result.segments.map txtLine))
  else if output_format = "srt" then
    .ok (String.intercalate "\n"
      (((List.enumFrom 1 result.segments).map fun p => srtCue p.1 p.2).flatten))
  else
    .error (.valueError ("Unsupported output format: " ++ output_format))

/- ----------------------------------------------------------------
   Orchestration (`AudioTranscriber.transcribe_audio`,
   `app/transcribe.py` lines 244-339, with `preprocess_audio` lines 104-127)
---------------------------------------------------------------- -/

/-- The list `self.supported_formats` from `AudioTranscriber.__init__`. -/
def supported_formats : List String :=
  [".mp3", ".wav", ".m4a", ".flac", ".ogg", ".webm"]

/-- The external collaborators of one `transcribe_audio` run, treated as
opaque inputs: the filesystem check, the file extension, the ffmpeg
invocation made by `preprocess_audio`, the Whisper engine
(`transcribe_with_whisper`; `.error` models a raised exception), and the
diarization engine (`diarize_speakers` returns `None` — here `none` — both
when the pipeline is unavailable and when diarization raised). -/
structure Collaborators where
  file_exists : Bool
  file_ext : String
  ffmpeg_returncode : Int
  ffmpeg_stderr : String
  whisper_result : Except String WhisperResult
  pyannote_available : Bool
  diarize_result : Option (List SpeakerSeg)
deriving Repr

/-- The observable outcome of one `transcribe_audio` run: the returned
result or raised exception message, and whether the temporary normalized
WAV file created by `preprocess_audio` is still on disk afterwards. -/
structure TranscribeOutput where
  result : Except String TranscriptionResult
  temp_leaked : Bool
deriving Repr

/-- The speaker-turn list actually handed to the aligner by
`transcribe_audio` (lines 275-280): `speaker_segments` stays `None` unless
speaker detection was requested and pyannote imported successfully. -/
def speaker_segments_used (c : Collaborators) (detect_speakers : Bool) :
    Option (List SpeakerSeg) :=
  if detect_speakers && c.pyannote_available then c.diarize_result else none

/-- The `num_speakers` computation of `transcribe_audio` (lines 276-285):
`1` unless diarization produced a non-empty turn list, in which case the
number of distinct labels among the turns
(`len(set(seg["speaker"] for seg in speaker_segments))`). -/
def num_speakers_of : Option (List SpeakerSeg) → Nat
  | some l => if l.isEmpty then 1 else ((l.map SpeakerSeg.speaker).dedup).length
  | none => 1

/-- Model of `AudioTranscriber.transcribe_audio`.  Control flow from the source:
validation of existence and extension happens before any temporary file is
created; `preprocess_audio` then creates the temporary WAV
(`NamedTemporaryFile(delete=False)`) and runs ffmpeg, raising without
deleting the file when ffmpeg exits non-zero; only after `preprocess_audio`
returns does `transcribe_audio` enter the `try`/`finally` whose `finally`
unlinks the temporary file, so recognition/diarization/alignment/assembly
errors are followed by cleanup.  The outer `except` re-raises every error
wrapped as `Transcription failed: ...`. -/
def transcribe_audio (c : Collaborators) (file_basename : String)
    (detect_speakers : Bool) (model_size : String) (language : Option String)
    (task_id : String) (now : Nat) : TranscribeOutput :=
  if c.file_exists = false then
    { result := .error "Transcription failed: Audio file not found",
      temp_leaked := false }
  else if c.file_ext ∉ supported_formats then
    { result := .error ("Transcription failed: Unsupported file format: " ++ c.file_ext),
      temp_leaked := false }
  else if c.ffmpeg_returncode ≠ 0 then
    { result := .error ("Transcription failed: Audio preprocessing failed: FFmpeg conversion failed: "
        ++ c.ffmpeg_stderr),
      temp_leaked := true }
  else
    match c.whisper_result with
    | .error e =>
        { result := .error ("Transcription failed: Whisper transcription failed: " ++ e),
          temp_leaked := false }
    | .ok whisper_result =>
        let speaker_segments := speaker_segments_used c detect_speakers
        let num_speakers := num_speakers_of speaker_segments
        let transcription_segments :=
          assign_speakers_to_segments whisper_result.segments speaker_segments
        let full_text :=
          String.intercalate " " (transcription_segments.map TranscriptionSegment.text)
        let audio_duration : Rat :=
          match whisper_result.segments.getLast? with
          | some s => s.«end»
          | none => 0
        { result := .ok {
            segments := transcription_segments
            full_text := full_text
            duration := audio_duration
            num_speakers := num_speakers
            language := whisper_result.language
            metadata := {
              model_size := model_size
              original_file := file_basename
              file_format := c.file_ext
              speaker_diarization :=
                detect_speakers && c.pyannote_available && speaker_segments.isSome }
            task_id := task_id
            created_at := now }
          temp_leaked := false }

/- ----------------------------------------------------------------
   Result query (`get_transcription_result`, `app/main.py` lines 232-260)
---------------------------------------------------------------- -/

/-- A FastAPI `HTTPException` value as raised in `app/main.py`. -/
structure HTTPError where
  status_code : Nat
  detail : String
deriving Repr, DecidableEq

/-- The spec's `InvalidState` failure as realized by the code: the
`HTTPException(status_code=400, detail="Task not completed yet")` raised by
`get_transcription_result` for an existing, non-completed task. -/
def invalidStateError : HTTPError :=
  { status_code := 400, detail := "Task not completed yet" }

/-- Responses of `get_transcription_result`: a JSON body, or a file served
from the outputs directory. -/
inductive ApiResponse where
  | jsonResponse (body : String)
  | fileResponse (path : String) (media_type : String) (filename : String)
deriving Repr, DecidableEq

/-- Model of `get_transcription_result` from `app/main.py`.  The global
`active_tasks` dict is modelled as an association list and the outputs
directory as the list of existing file names.  The serialized JSON body is
rendered with the serializer model. -/
def get_transcription_result (active_tasks : List (String × TaskStatus))
    (output_dir_files : List String) (task_id : String) (format : String) :
    Except HTTPError ApiResponse :=
  match active_tasks.lookup task_id with
  | none => .error { status_code := 404, detail := "Task not found" }
  | some task =>
    if task.status ≠ "completed" then
      .error { status_code := 400, detail := "Task not completed yet" }
    else
      match task.result with
      | none => .error { status_code := 404, detail := "Result not available" }
      | some result =>
        if format = "json" then
          .ok (.jsonResponse (model_dump_json result))
        else
          let output_path := task_id ++ "." ++ format
          if output_path ∈ output_dir_files then
            .ok (.fileResponse output_path "text/plain" ("transcription." ++ format))
          else
            .error { status_code := 404, detail := "Result file not found" }

/- ----------------------------------------------------------------
   Helper lemmas
---------------------------------------------------------------- -/

/-- Specification of the speaker-selection loop run from an arbitrary
accumulator: either no turn's overlap strictly exceeds the starting
`max_overlap` and the loop leaves the accumulator unchanged, or the loop
returns the first turn whose overlap is maximal among all turns (every turn
is bounded by it, every earlier turn is strictly below it). -/
theorem speakerFold_foldl_spec (w : WhisperSegment) :
    ∀ (turns : List SpeakerSeg) (acc : String × Rat),
      (turns.foldl (speakerFold w) acc = acc ∧
        ∀ t ∈ turns, overlap_duration w t ≤ acc.2) ∨
      (∃ i, ∃ hi : i < turns.length,
        (turns.foldl (speakerFold w) acc).1 = (turns.get ⟨i, hi⟩).speaker ∧
        (turns.foldl (speakerFold w) acc).2 = overlap_duration w (turns.get ⟨i, hi⟩) ∧
        acc.2 < overlap_duration w (turns.get ⟨i, hi⟩) ∧
        (∀ t ∈ turns, overlap_duration w t ≤ overlap_duration w (turns.get ⟨i, hi⟩)) ∧
        (∀ j, ∀ hj : j < turns.length, j < i →
          overlap_duration w (turns.get ⟨j, hj⟩) < overlap_duration w (turns.get ⟨i, hi⟩))) := by
  intro turns
  induction turns with
  | nil =>
    intro acc
    exact Or.inl ⟨rfl, by simp⟩
  | cons t rest ih =>
    intro acc
    by_cases h : overlap_duration w t > acc.2
    · have hstep : (t :: rest).foldl (speakerFold w) acc
          = rest.foldl (speakerFold w) (t.speaker, overlap_duration w t) := by
        simp only [List.foldl_cons, speakerFold, if_pos h]
      rcases ih (t.speaker, overlap_duration w t) with ⟨heq, hall⟩ | ⟨i, hi, h1, h2, h3, h4, h5⟩
      · refine Or.inr ⟨0, Nat.succ_pos _, ?_, ?_, h, ?_, ?_⟩
        · rw [hstep, heq]
          rfl
        · rw [hstep, heq]
          rfl
        · intro a ha
          rcases List.mem_cons.mp ha with rfl | ha
          · exact le_refl _
          · exact hall a ha
        · intro j hj hj0
          omega
      · refine Or.inr ⟨i + 1, Nat.succ_lt_succ hi, ?_, ?_, ?_, ?_, ?_⟩
        · rw [hstep, h1]
          simp
        · rw [hstep, h2]
          simp
        · simpa using lt_trans h h3
        · intro a ha
          rcases List.mem_cons.mp ha with rfl | ha
          · simpa using le_of_lt h3
          · simpa using h4 a ha
        · intro j hj hji
          match j, hj with
          | 0, hj =>
            simpa using h3
          | j + 1, hj =>
            simpa using h5 j (Nat.lt_of_succ_lt_succ hj) (Nat.lt_of_succ_lt_succ hji)
    · have hstep : (t :: rest).foldl (speakerFold w) acc
          = rest.foldl (speakerFold w) acc := by
        simp only [List.foldl_cons, speakerFold, if_neg h]
      rcases ih acc with ⟨heq, hall⟩ | ⟨i, hi, h1, h2, h3, h4, h5⟩
      · refine Or.inl ⟨by rw [hstep, heq], ?_⟩
        intro a ha
        rcases List.mem_cons.mp ha with rfl | ha
        · exact le_of_not_lt h
        · exact hall a ha
      · refine Or.inr ⟨i + 1, Nat.succ_lt_succ hi, ?_, ?_, ?_, ?_, ?_⟩
        · rw [hstep, h1]
          simp
        · rw [hstep, h2]
          simp
        · simpa using lt_of_le_of_lt (le_refl acc.2) h3
        · intro a ha
          rcases List.mem_cons.mp ha with rfl | ha
          · simpa using le_of_lt (lt_of_le_of_lt (le_of_not_lt h) h3)
          · simpa using h4 a ha
        · intro j hj hji
          match j, hj with
          | 0, hj =>
            simpa using lt_of_le_of_lt (le_of_not_lt h) h3
          | j + 1, hj =>
            simpa using h5 j (Nat.lt_of_succ_lt_succ hj) (Nat.lt_of_succ_lt_succ hji)

theorem assign_length (ws : List WhisperSegment) (ss : Option (List SpeakerSeg)) :
    (assign_speakers_to_segments ws ss).length = ws.length := by
  rw [assign_eq_map]
  exact List.length_map _ _

theorem assign_get (ws : List WhisperSegment) (ss : Option (List SpeakerSeg))
    (k : Nat) (hk : k < ws.length)
    (hk2 : k < (assign_speakers_to_segments ws ss).length) :
    (assign_speakers_to_segments ws ss).get ⟨k, hk2⟩ =
      { text := pyStrip (ws.get ⟨k, hk⟩).text,
        start_time := (ws.get ⟨k, hk⟩).start,
        end_time := (ws.get ⟨k, hk⟩).«end»,
        speaker := some (assignedLabel (ws.get ⟨k, hk⟩) ss) } := by
  simp only [List.get_eq_getElem]
  have h := assign_eq_map ws ss
  rw [List.getElem_of_eq h, List.getElem_map]

theorem one_le_num_speakers_of (ss : Option (List SpeakerSeg)) :
    1 ≤ num_speakers_of ss := by
  match ss with
  | none => exact le_refl 1
  | some [] => exact le_refl 1
  | some (t :: ts) =>
    have hne : ((t :: ts).map SpeakerSeg.speaker).dedup ≠ [] := by
      intro hnil
      have := (List.dedup_eq_nil _).mp hnil
      simp at this
    simpa [num_speakers_of] using Nat.one_le_iff_ne_zero.mpr
      (fun hz => hne (List.eq_nil_of_length_eq_zero hz))

/- ----------------------------------------------------------------
   Claims about the aligner
---------------------------------------------------------------- -/

/-- Concrete recognition segment for the C1 counterexample. -/
def c1_seg : WhisperSegment := { text := "hello", start := 0, «end» := 1 }

/-- Concrete speaker turn for the C1 counterexample: disjoint from
`c1_seg`, so their overlap is zero. -/
def c1_turn : SpeakerSeg := { start := 2, «end» := 3, speaker := "Speaker 7" }

/-- C1, counterexample.  The claim says that a segment overlapping no turn
receives a sentinel unknown-speaker label instead of the default
`"Speaker 1"`.  On the concrete input below the overlap with the single
turn is `0`, yet the aligner labels the segment `"Speaker 1"`: the code has
no sentinel path (`assigned_speaker` is initialised to `"Speaker 1"` and
only overwritten on strictly positive overlap), so the claim is false. -/
theorem c1_zero_overlap_counterexample :
    overlap_duration c1_seg c1_turn = 0 ∧
    (assign_speakers_to_segments [c1_seg] (some [c1_turn])).map
        TranscriptionSegment.speaker = [some "Speaker 1"] := by
  constructor
  · simp [c1_seg, c1_turn, overlap_duration, pyMax, pyMin]
  · simp [c1_seg, c1_turn, assign_speakers_to_segments, speakerFold,
      overlap_duration, pyMax, pyMin]

/-- C1, amended.  For every recognition segment and non-empty turn list, if
the temporal overlap with every turn is zero, the aligner assigns the
default label `"Speaker 1"` — the same label as the diarization-skipped
path; no sentinel unknown-speaker label exists. -/
theorem c1_zero_overlap_assigns_default (ws : List WhisperSegment)
    (turns : List SpeakerSeg) (k : Nat) (hk : k < ws.length)
    (hturns : turns ≠ [])
    (hzero : ∀ t ∈ turns, overlap_duration (ws.get ⟨k, hk⟩) t = 0)
    (hk2 : k < (assign_speakers_to_segments ws (some turns)).length) :
    ((assign_speakers_to_segments ws (some turns)).get ⟨k, hk2⟩).speaker
      = some "Speaker 1" := by
  rw [assign_get ws (some turns) k hk hk2]
  match turns, hturns, hzero with
  | t :: ts, _, hzero =>
    show some (((t :: ts).foldl (speakerFold (ws.get ⟨k, hk⟩)) ("Speaker 1", 0)).1)
      = some "Speaker 1"
    rcases speakerFold_foldl_spec (ws.get ⟨k, hk⟩) (t :: ts) ("Speaker 1", 0) with
      ⟨heq, _⟩ | ⟨i, hi, _, _, h3, _, _⟩
    · rw [heq]
    · exfalso
      have hz := hzero _ (List.get_mem (t :: ts) i hi)
      rw [hz] at h3
      exact lt_irrefl _ h3

/-- Witness for the amended C1 theorem at the concrete counterexample
input. -/
theorem c1_zero_overlap_assigns_default_witness :
    ((assign_speakers_to_segments [c1_seg] (some [c1_turn])).get
        ⟨0, by decide⟩).speaker = some "Speaker 1" := by
  refine c1_zero_overlap_assigns_default [c1_seg] [c1_turn] 0 (by decide)
    (by decide) ?_ (by decide)
  intro t ht
  rw [List.mem_singleton] at ht
  subst ht
  show overlap_duration c1_seg c1_turn = 0
  simp [c1_seg, c1_turn, overlap_duration, pyMax, pyMin]

/-- C4.  For every recognition segment and turn list with at least one
strictly positive overlap, the aligner assigns the label of a turn with
maximal overlap duration, and every turn earlier in input order has
strictly smaller overlap (so equal maximal overlaps resolve to the
first-encountered turn). -/
theorem c4_max_overlap_first_wins (ws : List WhisperSegment)
    (turns : List SpeakerSeg) (k : Nat) (hk : k < ws.length)
    (hpos : ∃ t ∈ turns, 0 < overlap_duration (ws.get ⟨k, hk⟩) t)
    (hk2 : k < (assign_speakers_to_segments ws (some turns)).length) :
    ∃ i, ∃ hi : i < turns.length,
      ((assign_speakers_to_segments ws (some turns)).get ⟨k, hk2⟩).speaker
        = some ((turns.get ⟨i, hi⟩).speaker) ∧
      (∀ t ∈ turns, overlap_duration (ws.get ⟨k, hk⟩) t
        ≤ overlap_duration (ws.get ⟨k, hk⟩) (turns.get ⟨i, hi⟩)) ∧
      (∀ j, ∀ hj : j < turns.length, j < i →
        overlap_duration (ws.get ⟨k, hk⟩) (turns.get ⟨j, hj⟩)
          < overlap_duration (ws.get ⟨k, hk⟩) (turns.get ⟨i, hi⟩)) := by
  rw [assign_get ws (some turns) k hk hk2]
  obtain ⟨t0, ht0, hpos0⟩ := hpos
  match turns, ht0 with
  | t :: ts, ht0 =>
    rcases speakerFold_foldl_spec (ws.get ⟨k, hk⟩) (t :: ts) ("Speaker 1", 0) with
      ⟨_, hall⟩ | ⟨i, hi, h1, _, _, h4, h5⟩
    · exfalso
      exact absurd (lt_of_lt_of_le hpos0 (hall t0 ht0)) (lt_irrefl 0)
    · refine ⟨i, hi, ?_, h4, h5⟩
      show some (((t :: ts).foldl (speakerFold (ws.get ⟨k, hk⟩)) ("Speaker 1", 0)).1)
        = some (((t :: ts).get ⟨i, hi⟩).speaker)
      rw [h1]

/-- Witness for C4 at a concrete input: segment `[0,10)` against turns
`[0,4)` and `[4,10)` (overlaps `4` and `6`). -/
theorem c4_max_overlap_first_wins_witness :
    ∃ i, ∃ hi : i < ([⟨0, 4, "Speaker 1"⟩, ⟨4, 10, "Speaker 2"⟩] :
        List SpeakerSeg).length,
      ((assign_speakers_to_segments [⟨"a", 0, 10⟩]
          (some [⟨0, 4, "Speaker 1"⟩, ⟨4, 10, "Speaker 2"⟩])).get
            ⟨0, by decide⟩).speaker
        = some ((([⟨0, 4, "Speaker 1"⟩, ⟨4, 10, "Speaker 2"⟩] :
            List SpeakerSeg).get ⟨i, hi⟩).speaker) ∧
      (∀ t ∈ ([⟨0, 4, "Speaker 1"⟩, ⟨4, 10, "Speaker 2"⟩] : List SpeakerSeg),
        overlap_duration (([⟨"a", 0, 10⟩] : List WhisperSegment).get ⟨0, by decide⟩) t
          ≤ overlap_duration (([⟨"a", 0, 10⟩] : List WhisperSegment).get ⟨0, by decide⟩)
              (([⟨0, 4, "Speaker 1"⟩, ⟨4, 10, "Speaker 2"⟩] : List SpeakerSeg).get ⟨i, hi⟩)) ∧
      (∀ j, ∀ hj : j < ([⟨0, 4, "Speaker 1"⟩, ⟨4, 10, "Speaker 2"⟩] :
          List SpeakerSeg).length, j < i →
        overlap_duration (([⟨"a", 0, 10⟩] : List WhisperSegment).get ⟨0, by decide⟩)
            (([⟨0, 4, "Speaker 1"⟩, ⟨4, 10, "Speaker 2"⟩] : List SpeakerSeg).get ⟨j, hj⟩)
          < overlap_duration (([⟨"a", 0, 10⟩] : List WhisperSegment).get ⟨0, by decide⟩)
              (([⟨0, 4, "Speaker 1"⟩, ⟨4, 10, "Speaker 2"⟩] : List SpeakerSeg).get ⟨i, hi⟩)) := by
  refine c4_max_overlap_first_wins [⟨"a", 0, 10⟩]
    [⟨0, 4, "Speaker 1"⟩, ⟨4, 10, "Speaker 2"⟩] 0 (by decide) ?_ (by decide)
  refine ⟨⟨0, 4, "Speaker 1"⟩, by simp, ?_⟩
  show (0 : Rat) < overlap_duration ⟨"a", 0, 10⟩ ⟨0, 4, "Speaker 1"⟩
  simp [overlap_duration, pyMax, pyMin]
  norm_num

/-- C8.  For every non-empty recognition segment list, when the turn list is
empty or diarization is unavailable (`None`), every output segment carries
the fixed default label `"Speaker 1"`. -/
theorem c8_empty_turns_default_label (ws : List WhisperSegment)
    (hws : ws ≠ []) (ss : Option (List SpeakerSeg))
    (hss : ss = none ∨ ss = some []) :
    ∀ s ∈ assign_speakers_to_segments ws ss, s.speaker = some "Speaker 1" := by
  rcases hss with rfl | rfl <;>
  · intro s hs
    simp only [assign_speakers_to_segments, List.mem_map] at hs
    obtain ⟨a, _, rfl⟩ := hs
    rfl

/-- Witness for C8 at a concrete input. -/
theorem c8_empty_turns_default_label_witness :
    ((assign_speakers_to_segments [⟨"hey", 0, 1⟩] none).get ⟨0, by decide⟩).speaker
      = some "Speaker 1" :=
  c8_empty_turns_default_label [⟨"hey", 0, 1⟩] (by decide) none (Or.inl rfl)
    _ (List.get_mem _ 0 (by decide))

/-- C10.  For every recognition segment list and optional turn list, the
aligner returns exactly one output segment per input segment, in order,
with start and end times unchanged and the text equal to the input text
with leading and trailing whitespace stripped. -/
theorem c10_align_preserves_structure (ws : List WhisperSegment)
    (ss : Option (List SpeakerSeg)) :
    (assign_speakers_to_segments ws ss).length = ws.length ∧
    ∀ k, ∀ hk : k < ws.length,
      ∀ hk2 : k < (assign_speakers_to_segments ws ss).length,
      ((assign_speakers_to_segments ws ss).get ⟨k, hk2⟩).start_time
          = (ws.get ⟨k, hk⟩).start ∧
      ((assign_speakers_to_segments ws ss).get ⟨k, hk2⟩).end_time
          = (ws.get ⟨k, hk⟩).«end» ∧
      ((assign_speakers_to_segments ws ss).get ⟨k, hk2⟩).text
          = pyStrip (ws.get ⟨k, hk⟩).text := by
  refine ⟨assign_length ws ss, ?_⟩
  intro k hk hk2
  rw [assign_get ws ss k hk hk2]
  exact ⟨rfl, rfl, rfl⟩

/-- Witness for C10 at a concrete input with surrounding whitespace. -/
theorem c10_align_preserves_structure_witness :
    ((assign_speakers_to_segments [⟨" hi there ", 2, 5⟩] none).get
        ⟨0, by decide⟩).start_time = 2 ∧
    ((assign_speakers_to_segments [⟨" hi there ", 2, 5⟩] none).get
        ⟨0, by decide⟩).end_time = 5 ∧
    ((assign_speakers_to_segments [⟨" hi there ", 2, 5⟩] none).get
        ⟨0, by decide⟩).text = pyStrip " hi there " :=
  (c10_align_preserves_structure [⟨" hi there ", 2, 5⟩] none).2 0 (by decide)
    (by decide)

/- ----------------------------------------------------------------
   Claims about the orchestrator
---------------------------------------------------------------- -/

/-- The number of distinct non-null speaker labels appearing on a list of
transcript segments (the quantity the C2 claim refers to). -/
def distinct_segment_labels (segs : List TranscriptionSegment) : Nat :=
  ((segs.filterMap TranscriptionSegment.speaker).dedup).length

/-- Collaborators for the C2 counterexample: diarization reports two
distinct speakers, but the second turn overlaps no recognition segment. -/
def c2_collab : Collaborators :=
  { file_exists := true, file_ext := ".mp3", ffmpeg_returncode := 0,
    ffmpeg_stderr := "",
    whisper_result := .ok { segments := [⟨" hi ", 0, 1⟩], language := some "en" },
    pyannote_available := true,
    diarize_result := some [⟨0, 1, "Speaker 1"⟩, ⟨5, 6, "Speaker 2"⟩] }

/-- The pair (num_speakers, distinct labels on the segments) observed on the
C2 counterexample run. -/
def c2_observed : Option (Nat × Nat) :=
  (transcribe_audio c2_collab "audio.mp3" true "base" none "task-c2"
      0).result.toOption.map
    fun r => (r.num_speakers, distinct_segment_labels r.segments)

/-- C2, counterexample.  The claim says `num_speakers` equals the number of
distinct non-null labels on the transcript's segments.  On the run below
diarization finds two speakers but only `"Speaker 1"` ever appears on a
segment: the code sets `num_speakers` from the diarization turns (line
283-284), not from the assigned segments, so the transcript reports
`num_speakers = 2` while its segments carry one distinct label. -/
theorem c2_num_speakers_counterexample :
    c2_observed = some (2, 1) ∧ (2 : Nat) ≠ 1 := by
  constructor
  · simp [c2_observed, transcribe_audio, c2_collab, supported_formats,
      speaker_segments_used, num_speakers_of, assign_speakers_to_segments,
      speakerFold, overlap_duration, pyMax, pyMin, pyStrip, isPySpace,
      distinct_segment_labels]
    norm_num
    exact ⟨_, rfl, rfl, rfl⟩
  · decide

/-- C2, amended.  For every successful run, `num_speakers` equals the
number of distinct labels among the diarization turns handed to the aligner
(1 when diarization did not run or returned no turns), and is always at
least 1. -/
theorem c2_num_speakers_amended (c : Collaborators) (fb ms : String)
    (lang : Option String) (tid : String) (now : Nat) (ds : Bool)
    (r : TranscriptionResult)
    (hok : (transcribe_audio c fb ds ms lang tid now).result = .ok r) :
    1 ≤ r.num_speakers ∧
    r.num_speakers = num_speakers_of (speaker_segments_used c ds) := by
  unfold transcribe_audio at hok
  by_cases h1 : c.file_exists = false
  · simp [h1] at hok
  · by_cases h2 : c.file_ext ∉ supported_formats
    · simp [h1, h2] at hok
    · by_cases h3 : c.ffmpeg_returncode ≠ 0
      · simp [h1, h2, h3] at hok
      · match hw : c.whisper_result with
        | .error e => simp [h1, h2, h3, hw] at hok
        | .ok wr =>
          simp [h1, h2, h3, hw] at hok
          subst hok
          exact ⟨one_le_num_speakers_of _, rfl⟩

/-- Collaborators for the C2 witness: a minimal successful run with no
diarization. -/
def c2_witness_collab : Collaborators :=
  { file_exists := true, file_ext := ".wav", ffmpeg_returncode := 0,
    ffmpeg_stderr := "", whisper_result := .ok { segments := [], language := none },
    pyannote_available := false, diarize_result := none }

/-- The transcript produced on the C2 witness run. -/
def c2_witness_result : TranscriptionResult :=
  { segments := [], full_text := "", duration := 0, num_speakers := 1,
    language := none,
    metadata := { model_size := "base", original_file := "a.wav",
                  file_format := ".wav", speaker_diarization := false },
    task_id := "t", created_at := 0 }

/-- Witness for the amended C2 theorem at a concrete successful run. -/
theorem c2_num_speakers_amended_witness :
    1 ≤ c2_witness_result.num_speakers ∧
    c2_witness_result.num_speakers
      = num_speakers_of (speaker_segments_used c2_witness_collab true) :=
  c2_num_speakers_amended c2_witness_collab "a.wav" "base" none "t" 0 true
    c2_witness_result rfl

/-- Collaborators for the C3 failing input: an existing `.mp3` file on
which the ffmpeg conversion inside `preprocess_audio` exits non-zero. -/
def c3_collab : Collaborators :=
  { file_exists := true, file_ext := ".mp3", ffmpeg_returncode := 1,
    ffmpeg_stderr := "corrupt input",
    whisper_result := .ok { segments := [], language := none },
    pyannote_available := true, diarize_result := none }

/-- C3, failing input.  The claim (and the spec) require the temporary
normalized-audio file to be released on every exit path, including a
normalization failure.  `preprocess_audio` creates the temporary WAV with
`NamedTemporaryFile(delete=False)` *before* invoking ffmpeg and raises
without unlinking it when ffmpeg fails; the `try`/`finally` of
`transcribe_audio` that performs the cleanup only begins after
`preprocess_audio` has returned.  On this input the run fails during
normalization and the temporary file is leaked. -/
theorem c3_temp_leak_on_ffmpeg_failure :
    (transcribe_audio c3_collab "audio.mp3" true "base" none "task-1"
        0).temp_leaked = true ∧
    (transcribe_audio c3_collab "audio.mp3" true "base" none "task-1" 0).result
      = .error ("Transcription failed: Audio preprocessing failed: " ++
          "FFmpeg conversion failed: corrupt input") :=
  ⟨rfl, rfl⟩

/-- C6.  For every run with speaker detection requested in which the
diarization engine is unavailable (pyannote missing) or fails
(`diarize_speakers` returned `None`), the job still completes: the
transcript is produced, its metadata records `speaker_diarization = false`,
and every segment carries the default label `"Speaker 1"`. -/
theorem c6_diarization_failure_degrades (c : Collaborators) (fb ms : String)
    (lang : Option String) (tid : String) (now : Nat) (wr : WhisperResult)
    (hfile : c.file_exists = true) (hext : c.file_ext ∈ supported_formats)
    (hff : c.ffmpeg_returncode = 0) (hw : c.whisper_result = .ok wr)
    (hdia : c.pyannote_available = false ∨ c.diarize_result = none) :
    ∃ r, (transcribe_audio c fb true ms lang tid now).result = .ok r ∧
      r.metadata.speaker_diarization = false ∧
      ∀ s ∈ r.segments, s.speaker = some "Speaker 1" := by
  have hss : speaker_segments_used c true = none := by
    rcases hdia with h | h <;> simp [speaker_segments_used, h]
  unfold transcribe_audio
  rw [if_neg (by simp [hfile]), if_neg (by simp [hext]), if_neg (by simp [hff]), hw]
  refine ⟨_, rfl, ?_, ?_⟩
  · simp [hss]
  · simp only [hss]
    intro s hs
    simp only [assign_speakers_to_segments, List.mem_map] at hs
    obtain ⟨a, _, rfl⟩ := hs
    rfl

/-- Collaborators for the C6 witness: speaker detection requested, pyannote
available, but the diarization engine fails. -/
def c6_collab : Collaborators :=
  { file_exists := true, file_ext := ".ogg", ffmpeg_returncode := 0,
    ffmpeg_stderr := "",
    whisper_result := .ok { segments := [⟨"bonjour", 0, 2⟩], language := some "fr" },
    pyannote_available := true, diarize_result := none }

/-- Witness for C6 at a concrete run with a failing diarization engine. -/
theorem c6_diarization_failure_degrades_witness :
    ∃ r, (transcribe_audio c6_collab "x.ogg" true "base" none "t" 0).result
        = .ok r ∧
      r.metadata.speaker_diarization = false ∧
      ∀ s ∈ r.segments, s.speaker = some "Speaker 1" :=
  c6_diarization_failure_degrades c6_collab "x.ogg" "base" none "t" 0
    { segments := [⟨"bonjour", 0, 2⟩], language := some "fr" }
    rfl (by decide) rfl rfl (Or.inr rfl)

/- ----------------------------------------------------------------
   Claims about the formatter and the result query
---------------------------------------------------------------- -/

/-- Test whether a formatter outcome is an `UnsupportedFormatError`. -/
def isUnsupportedFormatErr : Except PyError String → Bool
  | .error (.unsupportedFormatError _) => true
  | _ => false

/-- Concrete transcript used by the formatter claims. -/
def c5_result : TranscriptionResult :=
  { segments := [⟨"hello world", 0, 2, some "Speaker 1", none⟩],
    full_text := "hello world", duration := 2, num_speakers := 1,
    language := some "en",
    metadata := { model_size := "base", original_file := "a.mp3",
                  file_format := ".mp3", speaker_diarization := false },
    task_id := "t", created_at := 0 }

/-- C5, counterexample.  The claim says an unsupported output format fails
with an `UnsupportedFormat` error.  `format_output` instead raises the
built-in `ValueError` (line 374); the `UnsupportedFormatError` class defined
in `app/exceptions.py` is never raised by the formatter.  (It does fail —
no default rendering is returned — but with the wrong error type.) -/
theorem c5_unsupported_format_counterexample :
    format_output c5_result "xml"
        = .error (.valueError "Unsupported output format: xml") ∧
    isUnsupportedFormatErr (format_output c5_result "xml") = false :=
  ⟨rfl, rfl⟩

/-- C5, amended.  For every transcript and every output format outside the
supported set, `format_output` fails with a `ValueError` carrying the
message `Unsupported output format: ...` and never returns a default
rendering. -/
theorem c5_unsupported_format_value_error (r : TranscriptionResult)
    (fmt : String) (h1 : fmt ≠ "json") (h2 : fmt ≠ "txt") (h3 : fmt ≠ "srt") :
    format_output r fmt
      = .error (.valueError ("Unsupported output format: " ++ fmt)) := by
  simp [format_output, h1, h2, h3]

/-- Witness for the amended C5 theorem at the format `"xml"`. -/
theorem c5_unsupported_format_value_error_witness :
    format_output c5_result "xml"
      = .error (.valueError ("Unsupported output format: " ++ "xml")) :=
  c5_unsupported_format_value_error c5_result "xml" (by decide) (by decide)
    (by decide)

/-- C7.  For every transcript and every supported output format, formatting
succeeds and is deterministic and idempotent: the embedded formatter is a
pure function of the transcript, so two formatting calls on the same
transcript yield the same bytes, and for each supported format it returns a
rendering rather than an error. -/
theorem c7_format_deterministic (r : TranscriptionResult) (fmt : String)
    (hfmt : fmt = "json" ∨ fmt = "txt" ∨ fmt = "srt") :
    format_output r fmt = format_output r fmt ∧
    ∃ s, format_output r fmt = Except.ok s := by
  refine ⟨rfl, ?_⟩
  rcases hfmt with rfl | rfl | rfl
  · exact ⟨_, rfl⟩
  · exact ⟨_, rfl⟩
  · exact ⟨_, rfl⟩

/-- Witness for C7 at a concrete transcript and the `srt` format. -/
theorem c7_format_deterministic_witness :
    format_output c5_result "srt" = format_output c5_result "srt" ∧
    ∃ s, format_output c5_result "srt" = Except.ok s :=
  c7_format_deterministic c5_result "srt" (Or.inr (Or.inr rfl))

/-- C9.  For every job table, every existing job whose state is not
`completed`, every requested format and any reported progress, the result
query fails with the invalid-state error (HTTP 400, `Task not completed
yet`) and returns no result. -/
theorem c9_result_before_completion_invalid_state
    (active_tasks : List (String × TaskStatus)) (files : List String)
    (task_id fmt : String) (task : TaskStatus)
    (hfound : active_tasks.lookup task_id = some task)
    (hstatus : task.status ≠ "completed") :
    get_transcription_result active_tasks files task_id fmt
      = .error invalidStateError := by
  unfold get_transcription_result
  rw [hfound]
  simp [hstatus, invalidStateError]

/-- An in-flight task for the C9 witness, with nonzero reported progress. -/
def c9_task : TaskStatus :=
  { task_id := "t1", status := "processing", progress := 9 / 10,
    message := some "Transcribing...", result := none, error := none,
    created_at := 0 }

/-- Witness for C9 at a concrete one-entry job table. -/
theorem c9_result_before_completion_invalid_state_witness :
    get_transcription_result [("t1", c9_task)] [] "t1" "json"
      = .error invalidStateError :=
  c9_result_before_completion_invalid_state [("t1", c9_task)] [] "t1" "json"
    c9_task rfl (by decide)

end AudioToText
